import Mathlib

/-!
# Verification of the couch-rs `Database` core (src/database.rs)

A shallow embedding of the paginated query engine (`find`, `find_batched`)
and the optimistic-concurrency write protocol (`save`, `upsert`) of
`src/database.rs`, together with theorems settling the claims about them.

Conventions of the embedding:
* JSON values (`serde_json::Value`) become the inductive `Json`;
* HTTP status codes become `Nat`;
* the asynchronous transport is an explicit argument: `find` receives the
  HTTP status and the (possibly failed) parse of the response body, and
  `find_batched` receives the collaborator `find` as an oracle indexed by
  the call number, together with the query that is actually submitted;
* a Rust panic (e.g. `.unwrap()` on an `Err`) is a distinguished outcome,
  never a value.
-/

namespace Couch

/-- Embedding of `serde_json::Value`. -/
inductive Json where
  | null
  | bool (b : Bool)
  | num (n : Int)
  | str (s : String)
  | arr (elems : List Json)
  | obj (fields : List (String × Json))

/-- Association-list lookup on the fields of a JSON object
(first binding wins, as in a map). -/
def lookupField : List (String × Json) → String → Option Json
  | [], _ => none
  | (k, v) :: rest, key => if k = key then some v else lookupField rest key

/-- Read access `value[key]` on a `Json` value: a field of an object,
`none` otherwise (serde's `Value::Null` for missing members). -/
def Json.getField (j : Json) (key : String) : Option Json :=
  match j with
  | .obj fs => lookupField fs key
  | _ => none

/-- Replace the binding of `key` if present, insert it otherwise. -/
def setFields : List (String × Json) → String → Json → List (String × Json)
  | [], key, v => [(key, v)]
  | (k, w) :: rest, key, v =>
      if k = key then (k, v) :: rest else (k, w) :: setFields rest key v

/-- Write access `value[key] = v` of `serde_json`: inserts into an object;
`Null` is first replaced by an empty object. (On any other shape the
source panics; the embedding is only applied to objects.) -/
def Json.setField : Json → String → Json → Json
  | .obj fs, key, v => .obj (setFields fs key v)
  | .null, key, v => .obj [(key, v)]
  | j, _, _ => j

/-- Whether a `Json` value is an object (a map), the only shape documents
take per the spec's data model. -/
def Json.isObj : Json → Bool
  | .obj _ => true
  | _ => false

/-- Modelled from the spec: the `json_extr!` helper (its macro definition is
not part of the provided sources) extracts the `_id` string of a raw
document as used by `find`'s design-document filter; an absent or
non-string `_id` yields the default empty string. -/
def docId (j : Json) : String :=
  match j.getField "_id" with
  | some (.str s) => s
  | _ => ""

/-- Rust's `id.starts_with('_')`: the first character is `'_'`. -/
def startsWithUnderscore (s : String) : Bool :=
  match s.data with
  | [] => false
  | c :: _ => c == '_'

/-- Embedding of `couch_rs::document::Document`: a wrapper around a JSON
value (`Document::new` / `get_data`). -/
structure Document where
  data : Json

/-- The `_id` of a document, as extracted by `Document::new`. -/
def Document.idOf (d : Document) : String := docId d.data

/-- Embedding of `CouchError`: a message and the HTTP status it was raised
with (`CouchError::new(message, status)`). -/
structure CouchError where
  message : String
  status : Nat
deriving DecidableEq

/-- Modelled from the spec: `CouchError::is_not_found` (error.rs is not
part of the provided sources). The spec's taxonomy distinguishes
`NotFound` — document absent — which is HTTP status 404. -/
def CouchError.is_not_found (e : CouchError) : Bool := e.status == 404

/-- Embedding of `types::find::FindResult`, the parsed body of a `_find`
response: the fields `find` reads. -/
structure FindResult where
  docs : Option (List Json)
  error : Option String
  bookmark : Option String

/-- Embedding of `couch_rs::document::DocumentCollection`: an ordered batch
of documents, its `total_rows` count and an optional continuation
bookmark. -/
structure DocumentCollection where
  rows : List Document
  total_rows : Nat
  bookmark : Option String

/-- Modelled from the spec: `DocumentCollection::new_from_documents`
(document.rs is not part of the provided sources) builds a batch from the
retained documents and the normalized bookmark; `total_rows` is the batch's
row count. -/
def DocumentCollection.new_from_documents
    (documents : List Document) (bookmark : Option String) : DocumentCollection :=
  { rows := documents, total_rows := documents.length, bookmark := bookmark }

/-- The empty, bookmark-less batch of `DocumentCollection::default()`. -/
def DocumentCollection.empty : DocumentCollection :=
  { rows := [], total_rows := 0, bookmark := none }

/-- Outcome of a `find` call. `crash` models a Rust panic (the task
aborts; no value is returned to the caller). -/
inductive FindOutcome where
  | ok (collection : DocumentCollection)
  | err (e : CouchError)
  | crash

/-- Embedding of `Database::find` (database.rs lines 459–490), from the
point where the transport has answered: `status` is the HTTP status
captured before body parsing, `body` is the parse of the response body
(`none` when deserialization into `FindResult` fails — the source calls
`.unwrap()` on that parse, so failure is a panic). -/
def find (status : Nat) (body : Option FindResult) : FindOutcome :=
  match body with
  | none => .crash
  | some data =>
    match data.docs with
    | some doc_val =>
        let documents : List Document :=
          (doc_val.filter (fun d => !(startsWithUnderscore (docId d)))).map Document.mk
        let returned_bookmark := data.bookmark.getD ""
        let bookmark : Option String :=
          if returned_bookmark != "nil" && returned_bookmark != "" then
            some returned_bookmark
          else
            none
        .ok (DocumentCollection.new_from_documents documents bookmark)
    | none =>
      match data.error with
      | some err => .err ⟨err, status⟩
      | none => .ok DocumentCollection.empty

/-- Embedding of `types::document::DocumentCreatedResult`, the parsed body
of a write response: the fields `save` reads. -/
structure DocumentCreatedResult where
  ok : Option Bool
  id : Option String
  rev : Option String
  error : Option String

/-- Serialization of an `Option<String>` by `serde_json::json!`: `null`
for `None`, the string otherwise. -/
def jsonOfOptionString : Option String → Json
  | none => .null
  | some s => .str s

/-- Embedding of `Database::save` (database.rs lines 543–568), from the
point where the transport has answered: `status` is the HTTP status,
`data` the parsed `DocumentCreatedResult` body. On `ok == Some(true)` the
server revision is stamped onto the submitted document's value
(`val["_rev"] = json!(data.rev)`); otherwise a `CouchError` carries the
body's error string (or "unspecified error") and the status. -/
def save (doc : Document) (status : Nat) (data : DocumentCreatedResult) :
    Except CouchError Document :=
  match data.ok with
  | some true =>
      let val := doc.data.setField "_rev" (jsonOfOptionString data.rev)
      .ok ⟨val⟩
  | _ => .error ⟨data.error.getD "unspecified error", status⟩

/-- Modelled from the spec: the field-wise overlay inside `Document::merge`
(document.rs is not part of the provided sources). Overlapping keys take
the patch's value; the base's `_id` is preserved; keys of the patch absent
from the base are appended (so a patch `_rev` takes effect, a base `_rev`
survives an `_rev`-less patch). -/
def mergeFields (base patch : List (String × Json)) : List (String × Json) :=
  base.map (fun kv =>
    if kv.1 = "_id" then kv
    else
      match lookupField patch kv.1 with
      | some v => (kv.1, v)
      | none => kv)
  ++ patch.filter (fun kv => kv.1 != "_id" && (lookupField base kv.1).isNone)

/-- Modelled from the spec: `Document::merge` — field-wise overlay of a
patch value onto the document; both sides must be objects (the spec's only
admitted document shape), anything else leaves the document unchanged. -/
def Document.merge (d : Document) (patch : Json) : Document :=
  match d.data, patch with
  | .obj bs, .obj ps => ⟨.obj (mergeFields bs ps)⟩
  | _, _ => d

/-- Embedding of `Database::upsert` (database.rs lines 644–663). The
collaborators `get` (HTTP get of a document by id) and `save` are passed
as oracles; `doc._id` selects the document, a successful `get` leads to
`save` of the merge, a `NotFound` failure to `save` of the incoming
document, and any other `get` error is returned as is. The `?`-then-`Ok`
of the source is the explicit match on the save result. -/
def upsert (get : String → Except CouchError Document)
    (saveOp : Document → Except CouchError Document)
    (doc : Document) : Except CouchError Document :=
  match get doc.idOf with
  | .ok current_doc =>
      match saveOp (current_doc.merge doc.data) with
      | .ok d => .ok d
      | .error e => .error e
  | .error err =>
      if err.is_not_found then
        match saveOp doc with
        | .ok d => .ok d
        | .error e => .error e
      else
        .error err

/-- Embedding of `types::find::FindQuery`: the selector is kept opaque,
`limit` and `bookmark` are the fields `find_batched` manipulates. -/
structure FindQuery where
  selector : Json := .null
  limit : Option Nat := none
  bookmark : Option String := none

/-- Terminal state of a `find_batched` loop: `ok` with the accumulated
count, `err` with the first `find` failure, or `diverge` when the given
fuel ran out (the source loop has no intrinsic bound). -/
inductive BatchResult where
  | ok (results : Nat)
  | err (e : CouchError)
  | diverge
deriving DecidableEq

/-- One `find_batched` loop body per recursive call (database.rs lines
302–329), instrumented with the trace of queries submitted to `find`
(`submitted`) and of batches delivered to the channel (`sent`). The
collaborator `findOp` is the `self.find` call, indexed by the call number
so the server may answer each page differently. Note the source builds
`segment_query` carrying the current bookmark but then submits the base
`query` (line 305: `self.find(&query)`); the embedding reproduces this. -/
def find_batched_go (findOp : Nat → FindQuery → Except CouchError DocumentCollection)
    (query : FindQuery) (max_results : Nat) :
    Nat → Option String → Nat → Nat → List FindQuery → List DocumentCollection →
    List FindQuery × List DocumentCollection × BatchResult
  | 0, _, _, _, submitted, sent => (submitted, sent, .diverge)
  | fuel + 1, bookmark, results, callIdx, submitted, sent =>
    let segment_query : FindQuery := { query with bookmark := bookmark }
    match findOp callIdx query with
    | .error err => (submitted ++ [query], sent, .err err)
    | .ok all_docs =>
      let submitted := submitted ++ [query]
      if all_docs.total_rows = 0 then
        -- no more rows
        (submitted, sent, .ok results)
      else if all_docs.bookmark.isSome && all_docs.bookmark != bookmark then
        let bookmark := some (all_docs.bookmark.getD "")
        let results := results + all_docs.total_rows
        let sent := sent ++ [all_docs]
        if max_results > 0 && results ≥ max_results then
          (submitted, sent, .ok results)
        else
          find_batched_go findOp query max_results fuel bookmark results
            (callIdx + 1) submitted sent
      else
        -- no bookmark, break the query loop
        (submitted, sent, .ok results)

/-- Embedding of `Database::find_batched` (database.rs lines 289–336):
sets the query's `limit` to `batch_size` (default 1000 when 0) and runs
the loop from an absent bookmark and a zero count. Returns the submitted
queries, the delivered batches, and the terminal result. -/
def find_batched (findOp : Nat → FindQuery → Except CouchError DocumentCollection)
    (query : FindQuery) (batch_size max_results : Nat) (fuel : Nat) :
    List FindQuery × List DocumentCollection × BatchResult :=
  let limit := if batch_size > 0 then batch_size else 1000
  let query := { query with limit := some limit }
  find_batched_go findOp query max_results fuel none 0 0 [] []

/-! ## Concrete server scenarios used by the theorems -/

/-- A one-document page carrying the given continuation bookmark. -/
def pageWith (bm : Option String) : DocumentCollection :=
  DocumentCollection.new_from_documents [⟨.obj [("_id", Json.str "d")]⟩] bm

/-- A server whose first two answers each hold one row and a fresh
bookmark (`"b0"`, then `"b1"`), and which is exhausted afterwards. -/
def twoPageServer : Nat → FindQuery → Except CouchError DocumentCollection
  | 0, _ => .ok (pageWith (some "b0"))
  | 1, _ => .ok (pageWith (some "b1"))
  | _, _ => .ok (DocumentCollection.new_from_documents [] none)

/-- Ten documents, ids `10 * n` through `10 * n + 9`. -/
def tenDocs (n : Nat) : List Document :=
  (List.range 10).map (fun i => ⟨.obj [("_id", Json.str (Nat.repr (10 * n + i)))]⟩)

/-- A server holding 30 matching documents: three pages of ten rows, each
page answering a fresh bookmark, exhausted afterwards. -/
def server30 : Nat → FindQuery → Except CouchError DocumentCollection
  | 0, _ => .ok (DocumentCollection.new_from_documents (tenDocs 0) (some "b0"))
  | 1, _ => .ok (DocumentCollection.new_from_documents (tenDocs 1) (some "b1"))
  | 2, _ => .ok (DocumentCollection.new_from_documents (tenDocs 2) (some "b2"))
  | _, _ => .ok (DocumentCollection.new_from_documents [] none)

/-- A server that always answers one row and no bookmark. -/
def stagnantServer : Nat → FindQuery → Except CouchError DocumentCollection
  | _, _ => .ok (pageWith none)

/-! ## Helper lemmas -/

/-- Evaluation of `find` on a body that carries a `docs` field: the batch
holds the underscore-filtered documents and the normalized bookmark. -/
theorem find_docs_ok (status : Nat) (ds : List Json) (er bm : Option String) :
    find status (some ⟨some ds, er, bm⟩) =
      .ok (DocumentCollection.new_from_documents
        ((ds.filter (fun d => !(startsWithUnderscore (docId d)))).map Document.mk)
        (if (bm.getD "") != "nil" && (bm.getD "") != "" then
          some (bm.getD "")
        else
          none)) := rfl

/-- A string of the shape `"_design/" ++ rest` begins with `'_'`. -/
theorem startsWithUnderscore_design (rest : String) :
    startsWithUnderscore ("_design/" ++ rest) = true := by
  have h : ("_design/" ++ rest).data = "_design/".data ++ rest.data :=
    String.data_append _ _
  unfold startsWithUnderscore
  rw [h]
  rfl

/-- Looking up the key just written by `setFields` gives the new value. -/
theorem lookupField_setFields_same (fs : List (String × Json)) (k : String) (v : Json) :
    lookupField (setFields fs k v) k = some v := by
  induction fs with
  | nil => simp [setFields, lookupField]
  | cons kv rest ih =>
      by_cases hk : kv.1 = k
      · simp [setFields, hk, lookupField]
      · simp [setFields, hk, lookupField, ih]

/-- Looking up any other key after `setFields` is unchanged. -/
theorem lookupField_setFields_other (fs : List (String × Json)) (k : String) (v : Json)
    (k' : String) (h : k' ≠ k) :
    lookupField (setFields fs k v) k' = lookupField fs k' := by
  have hne : ¬ k = k' := fun hkk => h hkk.symm
  induction fs with
  | nil => simp [setFields, lookupField, hne]
  | cons kv rest ih =>
      by_cases hk : kv.1 = k
      · subst hk
        simp [setFields, lookupField, hne]
      · simp [setFields, hk, lookupField, ih]

/-! ## Claims about the cursor iterator `find_batched` -/

/-- C1: the claim says the query submitted for page n+1 carries the
bookmark returned by page n. The source instead builds `segment_query`
with the bookmark and then submits the unmodified base `query`
(line 305). Evaluated on a server whose first page answers bookmark
`"b0"`: the trace of submitted queries is two copies of the base query,
both with an absent bookmark, although page 1 returned bookmark `"b0"`
(second conjunct) which the claim requires the second query to carry. -/
theorem find_batched_never_submits_adopted_bookmark :
    (find_batched twoPageServer {} 10 0 2).1 =
      [{ selector := .null, limit := some 10, bookmark := none },
       { selector := .null, limit := some 10, bookmark := none }] ∧
    twoPageServer 0 { selector := .null, limit := some 10, bookmark := none } =
      .ok (pageWith (some "b0")) :=
  ⟨rfl, rfl⟩

/-- C2: with `batch_size = 10`, `max_results = 15` and a server holding 30
matching documents (ten rows and a fresh bookmark per page), exactly two
batches totalling 20 documents are delivered and the returned count is 20
— `max_results` is rounded up to the next batch boundary. -/
theorem find_batched_rounds_up_to_batch_boundary :
    (find_batched server30 {} 10 15 10).2.2 = .ok 20 ∧
    (find_batched server30 {} 10 15 10).2.1.length = 2 ∧
    ((find_batched server30 {} 10 15 10).2.1.map (fun c => c.rows.length)).sum = 20 ∧
    ((find_batched server30 {} 10 15 10).2.1.map DocumentCollection.total_rows).sum = 20 :=
  ⟨rfl, rfl, rfl, rfl⟩

/-- C3, counterexample: the claim says a page with `total_rows > 0` and an
absent/unchanged bookmark is delivered before the loop stops, its rows
counted. On a server answering one row and no bookmark, the loop delivers
no batch at all and returns `Ok(0)`, not `Ok(1)`. -/
theorem stagnant_bookmark_batch_not_delivered :
    (find_batched stagnantServer {} 10 0 5).2.1 = [] ∧
    (find_batched stagnantServer {} 10 0 5).2.2 = .ok 0 ∧
    (find_batched stagnantServer {} 10 0 5).2.2 ≠ .ok 1 ∧
    stagnantServer 0 { selector := .null, limit := some 10, bookmark := none } =
      .ok (pageWith none) ∧
    (pageWith none).total_rows = 1 ∧ (pageWith none).bookmark = none :=
  ⟨rfl, rfl, by decide, rfl, rfl, rfl⟩

/-- C3, amended: whenever a `find` answer has `total_rows > 0` but its
bookmark is absent or equal to the bookmark currently in use, the loop
stops at once, returning `Ok` of the count accumulated so far — that
batch is not delivered to the channel and its rows are not counted. -/
theorem find_batched_go_stops_without_delivering
    (findOp : Nat → FindQuery → Except CouchError DocumentCollection)
    (query : FindQuery) (max_results fuel : Nat) (bookmark : Option String)
    (results callIdx : Nat) (submitted : List FindQuery)
    (sent : List DocumentCollection) (page : DocumentCollection)
    (hfind : findOp callIdx query = .ok page)
    (hrows : page.total_rows ≠ 0)
    (hbm : page.bookmark = none ∨ page.bookmark = bookmark) :
    find_batched_go findOp query max_results (fuel + 1) bookmark results callIdx
        submitted sent
      = (submitted ++ [query], sent, .ok results) := by
  unfold find_batched_go
  rw [hfind]
  rcases hbm with hbm | hbm <;>
    simp [hrows, hbm]

/-- Witness for the amended C3 at a concrete input. -/
theorem find_batched_go_stops_without_delivering_witness :
    find_batched_go stagnantServer { selector := .null, limit := some 10, bookmark := none }
        0 5 none 0 0 [] []
      = ([{ selector := .null, limit := some 10, bookmark := none }], [], .ok 0) :=
  find_batched_go_stops_without_delivering stagnantServer
    { selector := .null, limit := some 10, bookmark := none } 0 4 none 0 0 [] []
    (pageWith none) rfl (by decide) (Or.inl rfl)

/-! ## Claims about the query engine `find` -/

/-- C4, counterexample: the claim says an `error` field always yields a
`QueryError`, regardless of the payload's other fields. A payload that
carries both a `docs` field and an `error` field is answered with `Ok`
(the `docs` branch is tested first, line 465), not with the claimed
`QueryError`. -/
theorem find_docs_shadow_error_counterexample :
    (FindResult.mk (some []) (some "oops") none).error = some "oops" ∧
    find 418 (some ⟨some [], some "oops", none⟩) =
      .ok (DocumentCollection.new_from_documents [] none) ∧
    find 418 (some ⟨some [], some "oops", none⟩) ≠ .err ⟨"oops", 418⟩ :=
  ⟨rfl, rfl, by
    intro h
    exact FindOutcome.noConfusion
      (show FindOutcome.ok (DocumentCollection.new_from_documents [] none)
          = FindOutcome.err ⟨"oops", 418⟩ from h)⟩

/-- C4, amended: for every `find` call whose response body parses to a
payload containing an `error` field and no `docs` field, `find` returns a
`QueryError` whose message is the body's error string and whose status is
the original HTTP status captured before body parsing. -/
theorem find_error_without_docs (status : Nat) (data : FindResult) (msg : String)
    (hdocs : data.docs = none) (herr : data.error = some msg) :
    find status (some data) = .err ⟨msg, status⟩ := by
  obtain ⟨d, e, b⟩ := data
  simp only at hdocs herr
  subst hdocs
  subst herr
  rfl

/-- Witness for the amended C4 at a concrete input. -/
theorem find_error_without_docs_witness :
    find 500 (some ⟨none, some "oops", none⟩) = .err ⟨"oops", 500⟩ :=
  find_error_without_docs 500 ⟨none, some "oops", none⟩ "oops" rfl rfl

/-- C5: the claim says a response body that fails to deserialize is
propagated to the caller as an error result. The source calls `.unwrap()`
on the body parse (line 463), so such a response is a panic — the task
aborts and no `Result` reaches the caller. -/
theorem find_crashes_on_unparsable_body (status : Nat) :
    find status none = .crash := rfl

/-- C8: for every `find` response carrying a `docs` field, a returned
bookmark equal to the literal `"nil"` or to the empty string (or absent)
yields an absent bookmark in the resulting batch, and any other non-empty
bookmark string is kept verbatim as the batch's continuation token. -/
theorem find_bookmark_normalization (status : Nat) (ds : List Json)
    (er bm : Option String) (c : DocumentCollection)
    (h : find status (some ⟨some ds, er, bm⟩) = .ok c) :
    ((bm = none ∨ bm = some "" ∨ bm = some "nil") → c.bookmark = none) ∧
    (∀ s : String, bm = some s → s ≠ "" → s ≠ "nil" → c.bookmark = some s) := by
  rw [find_docs_ok] at h
  have hc := (FindOutcome.ok.injEq _ _).mp h
  subst hc
  constructor
  · rintro (rfl | rfl | rfl) <;> simp [DocumentCollection.new_from_documents]
  · rintro s rfl hs1 hs2
    simp [DocumentCollection.new_from_documents, hs1, hs2]

/-- Witness for C8 at a concrete input: a non-empty bookmark is kept. -/
theorem find_bookmark_normalization_witness :
    (DocumentCollection.new_from_documents [] (some "tok")).bookmark = some "tok" :=
  (find_bookmark_normalization 200 [] none (some "tok")
      (DocumentCollection.new_from_documents [] (some "tok")) rfl).2
    "tok" rfl (by decide) (by decide)

/-- C9: no document whose id starts with the reserved design prefix
`"_design/"` appears in a batch returned by `find`, whatever the server
included among the matches. -/
theorem find_filters_design_documents (status : Nat) (ds : List Json)
    (er bm : Option String) (c : DocumentCollection)
    (h : find status (some ⟨some ds, er, bm⟩) = .ok c)
    (d : Document) (hd : d ∈ c.rows) (rest : String) :
    d.idOf ≠ "_design/" ++ rest := by
  rw [find_docs_ok] at h
  have hc := (FindOutcome.ok.injEq _ _).mp h
  subst hc
  simp only [DocumentCollection.new_from_documents, List.mem_map, List.mem_filter] at hd
  obtain ⟨j, ⟨hj, hfilt⟩, rfl⟩ := hd
  intro heq
  have hid : startsWithUnderscore (docId j) = false := by
    simpa using hfilt
  rw [show (Document.mk j).idOf = docId j from rfl] at heq
  rw [heq, startsWithUnderscore_design] at hid
  exact Bool.noConfusion hid

/-- Witness for C9 at a concrete input: the surviving user document's id
is not design-prefixed, on a response that did include `"_design/x"`. -/
theorem find_filters_design_documents_witness :
    (Document.mk (Json.obj [("_id", Json.str "user1")])).idOf ≠ "_design/" ++ "x" :=
  find_filters_design_documents 200
    [Json.obj [("_id", Json.str "_design/x")],
     Json.obj [("_id", Json.str "_local/x")],
     Json.obj [("_id", Json.str "user1")]]
    none none
    (DocumentCollection.new_from_documents
      [Document.mk (Json.obj [("_id", Json.str "user1")])] none)
    rfl (Document.mk (Json.obj [("_id", Json.str "user1")])) (List.Mem.head _) "x"

/-- C10 (implicit): the filter drops every document whose `_id` begins
with `'_'`, not only design documents — no batch returned by `find`
contains a document with an underscore-prefixed id, and any raw document
with such an id (for instance `"_local/x"`) is absent from the batch. -/
theorem find_drops_underscore_ids (status : Nat) (ds : List Json)
    (er bm : Option String) (c : DocumentCollection)
    (h : find status (some ⟨some ds, er, bm⟩) = .ok c) :
    (∀ d ∈ c.rows, startsWithUnderscore d.idOf = false) ∧
    (∀ j : Json, startsWithUnderscore (docId j) = true → Document.mk j ∉ c.rows) := by
  rw [find_docs_ok] at h
  have hc := (FindOutcome.ok.injEq _ _).mp h
  subst hc
  constructor
  · intro d hd
    simp only [DocumentCollection.new_from_documents, List.mem_map, List.mem_filter] at hd
    obtain ⟨j, ⟨hj, hfilt⟩, rfl⟩ := hd
    simpa using hfilt
  · intro j hj hmem
    simp only [DocumentCollection.new_from_documents, List.mem_map, List.mem_filter] at hmem
    obtain ⟨j', ⟨hj', hfilt⟩, hjeq⟩ := hmem
    have : j' = j := by
      have := (Document.mk.injEq j' j).mp hjeq
      exact this
    subst this
    rw [hj] at hfilt
    exact Bool.noConfusion hfilt

/-- Witness for C10 at a concrete input: `"_local/x"` is dropped. -/
theorem find_drops_underscore_ids_witness :
    Document.mk (Json.obj [("_id", Json.str "_local/x")]) ∉
      (DocumentCollection.new_from_documents
        [Document.mk (Json.obj [("_id", Json.str "user1")])] none).rows :=
  (find_drops_underscore_ids 200
    [Json.obj [("_id", Json.str "_design/x")],
     Json.obj [("_id", Json.str "_local/x")],
     Json.obj [("_id", Json.str "user1")]]
    none none
    (DocumentCollection.new_from_documents
      [Document.mk (Json.obj [("_id", Json.str "user1")])] none)
    rfl).2 (Json.obj [("_id", Json.str "_local/x")]) rfl

/-! ## Claims about the write protocol -/

/-- C6: `upsert(doc)` first performs `get(doc._id)`; on success it returns
`save` of the merge of the current document with `doc`; on a `NotFound`
failure it returns `save(doc)` directly; any other `get` error is returned
unchanged — for every `save` oracle, so no save is attempted there. -/
theorem upsert_branching (get : String → Except CouchError Document)
    (saveOp : Document → Except CouchError Document) (doc : Document) :
    (∀ cur, get doc.idOf = .ok cur →
      upsert get saveOp doc = saveOp (cur.merge doc.data)) ∧
    (∀ e, get doc.idOf = .error e → e.is_not_found = true →
      upsert get saveOp doc = saveOp doc) ∧
    (∀ e, get doc.idOf = .error e → e.is_not_found = false →
      upsert get saveOp doc = .error e) := by
  refine ⟨?_, ?_, ?_⟩
  · intro cur hget
    unfold upsert
    rw [hget]
    cases hsv : saveOp (cur.merge doc.data) <;> simp [hsv]
  · intro e hget hnf
    unfold upsert
    rw [hget]
    cases hsv : saveOp doc <;> simp [hnf, hsv]
  · intro e hget hnf
    unfold upsert
    rw [hget]
    simp [hnf]

/-- A document with id `"a"` and a payload field, used as a witness. -/
def docA : Document := ⟨.obj [("_id", Json.str "a"), ("v", Json.num 2)]⟩

/-- An existing version of the `"a"` document, used as a witness. -/
def curA : Document := ⟨.obj [("_id", Json.str "a"), ("v", Json.num 1)]⟩

/-- Witness for C6 exercising all three branches at concrete inputs. -/
theorem upsert_branching_witness :
    upsert (fun _ => .ok curA) (fun d => .ok d) docA = .ok (curA.merge docA.data) ∧
    upsert (fun _ => .error ⟨"missing", 404⟩) (fun d => .ok d) docA = .ok docA ∧
    upsert (fun _ => .error ⟨"boom", 500⟩) (fun d => .ok d) docA = .error ⟨"boom", 500⟩ :=
  ⟨(upsert_branching (fun _ => .ok curA) (fun d => .ok d) docA).1 curA rfl,
   (upsert_branching (fun _ => .error ⟨"missing", 404⟩) (fun d => .ok d) docA).2.1
     ⟨"missing", 404⟩ rfl rfl,
   (upsert_branching (fun _ => .error ⟨"boom", 500⟩) (fun d => .ok d) docA).2.2
     ⟨"boom", 500⟩ rfl rfl⟩

/-- C7: when the server answers a save with `ok = true`, the returned
document equals the submitted one on every field except `_rev`, which now
holds the server-returned revision; no other field is altered. -/
theorem save_stamps_revision_only (doc : Document) (status : Nat)
    (data : DocumentCreatedResult) (res : Document)
    (hobj : doc.data.isObj = true)
    (hok : data.ok = some true)
    (h : save doc status data = .ok res) :
    (∀ k, k ≠ "_rev" → res.data.getField k = doc.data.getField k) ∧
    res.data.getField "_rev" = some (jsonOfOptionString data.rev) := by
  unfold save at h
  rw [hok] at h
  have hres := (Except.ok.injEq _ _).mp h
  obtain ⟨fs, hfs⟩ : ∃ fs, doc.data = .obj fs := by
    cases hdata : doc.data <;> simp [hdata, Json.isObj] at hobj ⊢
  have hset : doc.data.setField "_rev" (jsonOfOptionString data.rev)
      = .obj (setFields fs "_rev" (jsonOfOptionString data.rev)) := by
    rw [hfs]; rfl
  constructor
  · intro k hk
    rw [← hres]
    simp only [hset, hfs, Json.getField]
    exact lookupField_setFields_other fs "_rev" (jsonOfOptionString data.rev) k hk
  · rw [← hres]
    simp only [hset, Json.getField]
    exact lookupField_setFields_same fs "_rev" (jsonOfOptionString data.rev)

/-- Witness for C7 at a concrete input: saving `docA` against a server
answering revision `"2-x"` keeps the `"v"` field and stamps `_rev`. -/
theorem save_stamps_revision_only_witness :
    (Document.mk (docA.data.setField "_rev" (Json.str "2-x"))).data.getField "v"
        = docA.data.getField "v" ∧
    (Document.mk (docA.data.setField "_rev" (Json.str "2-x"))).data.getField "_rev"
        = some (Json.str "2-x") :=
  ⟨(save_stamps_revision_only docA 201 ⟨some true, none, some "2-x", none⟩
      (Document.mk (docA.data.setField "_rev" (Json.str "2-x"))) rfl rfl rfl).1
      "v" (by decide),
   (save_stamps_revision_only docA 201 ⟨some true, none, some "2-x", none⟩
      (Document.mk (docA.data.setField "_rev" (Json.str "2-x"))) rfl rfl rfl).2⟩

end Couch
